import Mathlib

/-!
Verification of the document ingestion-and-retrieval pipeline.

The definitions below are a shallow embedding of the backend routes and
helpers quoted in the repository (upload validation, filename sanitization,
storage cleanup, deletion ordering, pagination, ranked search) together with
the frontend byte-size formatter.  Bytes are modelled as natural numbers,
byte buffers as lists, filesystem and database state as explicit record
fields, and external outcomes (database commit, PDF extraction, the realpath
containment check) as injected parameters.
-/

deriving instance DecidableEq for Except

namespace DocProc

/-- Model of Python's regex class for a word character used with a `str`
pattern (`\w`): Unicode alphanumerics plus the underscore.  Modelled here for
ASCII alphanumerics plus the Latin-1 Supplement and Latin Extended letter
ranges U+00C0..U+024F (excluding the multiplication and division signs),
which is faithful for every character appearing in this development. -/
def pyIsWordChar (c : Char) : Bool :=
  c.isAlphanum || c = '_' ||
    (0xC0 ≤ c.toNat && c.toNat ≤ 0x24F && c.toNat ≠ 0xD7 && c.toNat ≠ 0xF7)

/-- The character class `[A-Za-z0-9._-]` named by the specification for
sanitized filenames. -/
def claimAllowedChar (c : Char) : Bool :=
  ('A' ≤ c && c ≤ 'Z') || ('a' ≤ c && c ≤ 'z') || ('0' ≤ c && c ≤ '9') ||
    c = '.' || c = '_' || c = '-'

/-- Characters of `uuid.uuid4().hex`: lowercase hexadecimal digits. -/
def isUuidHexChar (c : Char) : Bool :=
  c.isDigit || ('a' ≤ c && c ≤ 'f')

/-- ASCII lower-casing of one character, as applied by `str.lower` to the
extension before it is compared with the ASCII literal `".pdf"`. -/
def asciiLower (c : Char) : Char :=
  if 'A' ≤ c ∧ c ≤ 'Z' then Char.ofNat (c.toNat + 32) else c

/-- ASCII lower-casing of a string. -/
def strLower (s : String) : String :=
  ⟨s.data.map asciiLower⟩

/-- Index of the last occurrence of `c` in `l`, if any. -/
def lastIdx (c : Char) (l : List Char) : Option Nat :=
  (l.reverse.findIdx? (fun x => x = c)).map (fun k => l.length - 1 - k)

/-- The extension part of `os.path.splitext`: the suffix starting at the last
dot of the final path component, provided some earlier character of that
component is not a dot (so a purely leading-dot name such as `".pdf"` has no
extension). -/
def pySplitextExt (s : String) : String :=
  let cs := s.data
  match lastIdx '.' cs with
  | none => ""
  | some d =>
    let start := match lastIdx '/' cs with
      | none => 0
      | some j => j + 1
    if (List.range' start (d - start)).any (fun i => cs.getD i '.' ≠ '.') then
      ⟨cs.drop d⟩
    else ""

/-- `os.path.basename` on a POSIX path: everything after the last slash. -/
def pyBasename (s : String) : String :=
  ⟨(s.data.reverse.takeWhile (fun c => c ≠ '/')).reverse⟩

/-- `MAX_FILE_SIZE = 50 * 1024 * 1024` from the upload route. -/
def MAX_FILE_SIZE : Nat := 50 * 1024 * 1024

/-- `PDF_MAGIC_BYTES = b"%PDF"`. -/
def PDF_MAGIC_BYTES : List Nat := [0x25, 0x50, 0x44, 0x46]

/-- The classified upload validation rules, in the order the route checks
them. -/
inductive VRule
  | noFilename
  | badExtension
  | badContentType
  | tooLarge
  | emptyFile
  | badSignature
deriving DecidableEq

/-- `validate_pdf_file` from the upload route: filename present, extension
`.pdf` after lower-casing, declared content type `application/pdf`, size at
most `MAX_FILE_SIZE`, non-empty, and leading bytes `%PDF`; on success the
whole byte buffer is returned. -/
def validate_pdf_file (fn : Option String) (ct : Option String)
    (content : List Nat) : Except VRule (List Nat) :=
  if fn = none ∨ fn = some "" then .error .noFilename
  else if strLower (pySplitextExt (fn.getD "")) ≠ ".pdf" then .error .badExtension
  else if ct ≠ some "application/pdf" then .error .badContentType
  else if content.length > MAX_FILE_SIZE then .error .tooLarge
  else if content.length = 0 then .error .emptyFile
  else if ¬ PDF_MAGIC_BYTES.isPrefixOf content then .error .badSignature
  else .ok content

/-- The specification's description of upload validation: the ordered list of
rules (a)–(f), each paired with its failure condition. -/
def specChecks (fn : Option String) (ct : Option String)
    (content : List Nat) : List (VRule × Bool) :=
  [ (VRule.noFilename, decide (fn = none ∨ fn = some "")),
    (VRule.badExtension, decide (strLower (pySplitextExt (fn.getD "")) ≠ ".pdf")),
    (VRule.badContentType, decide (ct ≠ some "application/pdf")),
    (VRule.tooLarge, decide (content.length > 50 * 1024 * 1024)),
    (VRule.emptyFile, decide (content.length = 0)),
    (VRule.badSignature, decide (content.take 4 ≠ [0x25, 0x50, 0x44, 0x46])) ]

/-- The first failing rule of an ordered check list. -/
def firstFailedRule (l : List (VRule × Bool)) : Option VRule :=
  (l.find? (fun p => p.2)).map (fun p => p.1)

/-- Validation as the specification words it: short-circuit on the first
failing rule of (a)–(f); if none fails, accept the full buffer unchanged. -/
def validate_pdf_spec (fn : Option String) (ct : Option String)
    (content : List Nat) : Except VRule (List Nat) :=
  match firstFailedRule (specChecks fn ct content) with
  | some r => .error r
  | none => .ok content

/-- `sanitize_filename` from the upload route: reject an empty filename, take
the basename, delete null bytes, replace every character matching
`[^\w.\-]` by an underscore, reject `""`, `"."` and `".."`, then prepend the
random hex token and an underscore.  The token (`uuid.uuid4().hex[:8]`) is a
parameter `upre`. -/
def sanitize_filename (upre : String) (filename : String) : Except String String :=
  if filename = "" then .error "Filename cannot be empty"
  else
    let safe : List Char :=
      ((pyBasename filename).data.filter (fun c => c ≠ '\x00')).map
        (fun c => if pyIsWordChar c || c = '.' || c = '-' then c else '_')
    if (⟨safe⟩ : String) = "" ∨ (⟨safe⟩ : String) = "." ∨ (⟨safe⟩ : String) = ".." then
      .error "Invalid filename after sanitization"
    else .ok (⟨upre.data ++ '_' :: safe⟩ : String)

/-- Lexical canonicalization of an absolute path given as segments: `""` and
`"."` segments vanish, `".."` removes the previous segment (staying at the
root when there is none), any other segment is kept.  This is
`os.path.realpath` on a filesystem without symbolic links. -/
def normSegs (segs : List String) : List String :=
  segs.foldl
    (fun acc seg =>
      if seg = "" ∨ seg = "." then acc
      else if seg = ".." then acc.dropLast
      else acc ++ [seg])
    []

/-- `total_pages = (total + page_size - 1) // page_size if total > 0 else 1`
from the paginated listing route. -/
def total_pages (total page_size : Nat) : Nat :=
  if 0 < total then (total + page_size - 1) / page_size else 1

/-- Decimal model of JavaScript's `Number.prototype.toFixed(1)` applied to
`num / den`: one digit after the decimal point, rounding half up. -/
def fixed1 (num den : Nat) : String :=
  let scaled := (num * 10 + den / 2) / den
  toString (scaled / 10) ++ "." ++ toString (scaled % 10)

/-- `formatFileSize` from `frontend/src/utils/formatters.js` (and its copy in
`DocumentList.jsx`): a falsy byte count renders as `"Unknown size"`, then
unit thresholds at 1024 and 1024 * 1024. -/
def formatFileSize (bytes : Nat) : String :=
  if bytes = 0 then "Unknown size"
  else if bytes < 1024 then toString bytes ++ " B"
  else if bytes < 1024 * 1024 then fixed1 bytes 1024 ++ " KB"
  else fixed1 bytes (1024 * 1024) ++ " MB"

/-- One row of the `documents` table (`models.py`): identity, original
filename, recorded on-disk path, extracted content, derived search vector,
byte size, page count, creation time. -/
structure DocumentRec where
  id : Nat
  filename : String
  file_path : Option String
  content : String
  search_vector : Option (List String)
  file_size : Nat
  page_count : Nat
  created_at : Nat
deriving DecidableEq

/-- One row of the `processing_statuses` table. -/
structure StatusRec where
  document_id : Nat
  status : String
  error_message : Option String
deriving DecidableEq

/-- The state the routes act on: the next surrogate id, the two tables, and
the set of files present in the upload directory. -/
structure Sys where
  nextId : Nat
  docs : List DocumentRec
  statuses : List StatusRec
  fs : List String
deriving DecidableEq

/-- An HTTP error as raised by `HTTPException(status_code, detail)`. -/
structure ApiErr where
  status : Nat
  detail : String
deriving DecidableEq

/-- Observable ordering events of `delete_document`: the transaction commit
and the physical-file removal attempt. -/
inductive DbEvent
  | commit
  | removeFile (p : String)
deriving DecidableEq

/-- `UPLOAD_DIR` default from `config.py`. -/
def UPLOAD_DIR : String := "/tmp/docproc_uploads"

/-- The detail strings of the upload validation failures, with the
interpolated extension and declared content type passed in. -/
def validationDetail (r : VRule) (ext : String) (ct : Option String) : String :=
  match r with
  | .noFilename => "Filename is required."
  | .badExtension =>
      "Invalid file extension '" ++ ext ++ "'. Only PDF files (.pdf) are allowed."
  | .badContentType =>
      "Invalid content type '" ++ ct.getD "None" ++
        "'. Only PDF files (application/pdf) are allowed."
  | .tooLarge => "File too large. Maximum allowed size is 50 MB."
  | .emptyFile => "File is empty."
  | .badSignature => "Invalid PDF file. The file content does not match PDF format signature."

/-- Model of `to_tsvector` for search: lower-cased alphanumeric tokens of the
text.  (PostgreSQL additionally stems and drops stop words; the ordering and
capping claims do not depend on that.) -/
def to_tsvector (s : String) : List String :=
  ((strLower s).split (fun c => !(c.isAlphanum))).filter (fun w => w ≠ "")

/-- Model of `plainto_tsquery`: same token profile as `to_tsvector`. -/
def plainto_tsquery (s : String) : List String :=
  to_tsvector s

/-- `upload_document` (`POST /documents`): validate, sanitize, join with the
upload root, run the `validate_file_path` containment check (its realpath
outcome injected as `realpathOk`, since symbolic links are filesystem state
outside this model), write the file, extract (outcome injected as
`extractRes`), then insert the Document row, its completed status, and its
search vector in one commit.  An extraction failure removes the written file
and surfaces a 422 carrying the cause; an unhandled sanitizer error surfaces
as a generic 500. -/
def upload_document (st : Sys) (now : Nat) (fn ct : Option String)
    (content : List Nat) (upre : String) (realpathOk : Bool)
    (extractRes : Except String (String × Nat)) :
    Except ApiErr DocumentRec × Sys :=
  match validate_pdf_file fn ct content with
  | .error r =>
      (.error ⟨400, validationDetail r (strLower (pySplitextExt (fn.getD ""))) ct⟩, st)
  | .ok _ =>
    match sanitize_filename upre (fn.getD "") with
    | .error _ => (.error ⟨500, "Internal Server Error"⟩, st)
    | .ok safe =>
      let path := UPLOAD_DIR ++ "/" ++ safe
      if realpathOk then
        let fs1 := if path ∈ st.fs then st.fs else path :: st.fs
        match extractRes with
        | .error e =>
            (.error ⟨422, "Failed to process PDF file: " ++ e⟩,
             { st with fs := fs1.erase path })
        | .ok (textContent, pages) =>
          let doc : DocumentRec :=
            { id := st.nextId
              filename := fn.getD ""
              file_path := some path
              content := textContent
              search_vector := if textContent = "" then none else some (to_tsvector textContent)
              file_size := content.length
              page_count := pages
              created_at := now }
          (.ok doc,
           { st with
              nextId := st.nextId + 1
              docs := st.docs ++ [doc]
              statuses := st.statuses ++
                [{ document_id := st.nextId, status := "completed", error_message := none }]
              fs := fs1 })
      else (.error ⟨400, "Invalid file path"⟩, st)

/-- `delete_document` (`DELETE /documents/{id}`): look the Document up (404
when absent), delete its status row and the Document inside one transaction
(`commitOk` injects whether the commit succeeds; a failed commit rolls back
and surfaces as an unhandled 500), and only after a successful commit attempt
`os.remove` on the recorded path when the file exists (`removeOk` injects the
outcome; an `OSError` is swallowed).  The third component is the ordered
event trace. -/
def delete_document (st : Sys) (docId : Nat) (commitOk removeOk : Bool) :
    Except ApiErr String × Sys × List DbEvent :=
  match st.docs.find? (fun d => d.id = docId) with
  | none => (.error ⟨404, "Document not found"⟩, st, [])
  | some doc =>
    if commitOk then
      let st1 : Sys :=
        { st with
            docs := st.docs.filter (fun d => d.id ≠ docId)
            statuses := st.statuses.filter (fun r => r.document_id ≠ docId) }
      match doc.file_path with
      | none => (.ok "Document deleted", st1, [DbEvent.commit])
      | some p =>
        if p ∈ st1.fs then
          if removeOk then
            (.ok "Document deleted", { st1 with fs := st1.fs.erase p },
             [DbEvent.commit, DbEvent.removeFile p])
          else
            (.ok "Document deleted", st1, [DbEvent.commit, DbEvent.removeFile p])
        else (.ok "Document deleted", st1, [DbEvent.commit])
    else (.error ⟨500, "Internal Server Error"⟩, st, [])

/-- Python's default whitespace characters for `str.strip`. -/
def pyIsSpace (c : Char) : Bool :=
  c = ' ' || c = '\t' || c = '\n' || c = '\r' || c = '\x0b' || c = '\x0c'

/-- Modelled from the spec: the search route calls `sanitize_search_query`,
whose body is not among the source files; the specification says an empty or
whitespace-only query must come out empty, so it is modelled as Python
`str.strip`. -/
def sanitize_search_query (q : String) : String :=
  ⟨((q.data.dropWhile pyIsSpace).reverse.dropWhile pyIsSpace).reverse⟩

/-- `search_vector @@ plainto_tsquery(...)`: every query token occurs in the
stored vector; a row without a vector, or an empty token list, matches
nothing. -/
def tsMatch (qt : List String) (v : Option (List String)) : Bool :=
  match v with
  | none => false
  | some ts => decide (qt ≠ []) && qt.all (fun t => ts.contains t)

/-- Model of `ts_rank`: total number of query-token occurrences in the stored
vector. -/
def ts_rank (qt : List String) (v : Option (List String)) : Nat :=
  match v with
  | none => 0
  | some ts => (qt.map (fun t => ts.count t)).sum

/-- The space-separated words of a string. -/
def wordsOf (s : String) : List String :=
  (s.split (fun c => c = ' ')).filter (fun w => w ≠ "")

/-- Model of `ts_headline(... 'MaxWords=35, MinWords=15')`: an excerpt of at
most 35 words of the content. -/
def ts_headline (content : String) : String :=
  " ".intercalate ((wordsOf content).take 35)

/-- One row of the ranked-search response: document identity, filename,
highlighted snippet, numeric rank. -/
structure SearchHit where
  id : Nat
  filename : String
  snippet : String
  rank : Nat
deriving DecidableEq

/-- Projection of a matching Document row to its search hit. -/
def toHit (qt : List String) (d : DocumentRec) : SearchHit :=
  { id := d.id
    filename := d.filename
    snippet := ts_headline d.content
    rank := ts_rank qt d.search_vector }

/-- `ORDER BY rank DESC, created_at DESC`: `a` comes no later than `b` when
its rank is larger, or the ranks tie and its creation time is no smaller. -/
def searchRel (qt : List String) (a b : DocumentRec) : Prop :=
  ts_rank qt b.search_vector < ts_rank qt a.search_vector ∨
    (ts_rank qt a.search_vector = ts_rank qt b.search_vector ∧
      b.created_at ≤ a.created_at)

instance (qt : List String) : DecidableRel (searchRel qt) := by
  intro a b
  unfold searchRel
  infer_instance

instance (qt : List String) : IsTotal DocumentRec (searchRel qt) := by
  constructor
  intro a b
  unfold searchRel
  omega

instance (qt : List String) : IsTrans DocumentRec (searchRel qt) := by
  constructor
  intro a b c
  unfold searchRel
  omega

/-- The rows the search query returns, in response order: the matching rows
sorted by rank descending then creation time descending, capped at 100. -/
def searchRows (q : String) (docs : List DocumentRec) : List DocumentRec :=
  let s := sanitize_search_query q
  if s = "" then []
  else
    (((docs.filter (fun d => tsMatch (plainto_tsquery s) d.search_vector)).insertionSort
        (searchRel (plainto_tsquery s))).take 100)

/-- `search_documents` (`GET /search` handler body): a query sanitizing to
the empty string returns `[]` without touching the store (the boolean records
whether the store was queried); otherwise the ranked, capped hit list. -/
def search_documents (q : String) (docs : List DocumentRec) :
    List SearchHit × Bool :=
  let s := sanitize_search_query q
  if s = "" then ([], false)
  else ((searchRows q docs).map (toHit (plainto_tsquery s)), true)

/-- The full route, including the `Query(..., min_length=1)` parameter
validation: a zero-length `q` is rejected with a 422 before the handler
runs. -/
def search_endpoint (q : String) (docs : List DocumentRec) :
    Except Nat (List SearchHit × Bool) :=
  if q.length < 1 then .error 422 else .ok (search_documents q docs)

/-- A concrete stored document, used as a test fixture. -/
def sampleDoc : DocumentRec :=
  { id := 1
    filename := "a.pdf"
    file_path := some "/tmp/docproc_uploads/abc12345_a.pdf"
    content := "hello world"
    search_vector := some ["hello", "world"]
    file_size := 4
    page_count := 1
    created_at := 10 }

/-- A concrete system state holding `sampleDoc`, used as a test fixture. -/
def sampleSys : Sys :=
  { nextId := 2
    docs := [sampleDoc]
    statuses := [{ document_id := 1, status := "completed", error_message := none }]
    fs := ["/tmp/docproc_uploads/abc12345_a.pdf"] }

/-- The empty system state, used as a test fixture. -/
def emptySys : Sys :=
  { nextId := 1, docs := [], statuses := [], fs := [] }

/-- Bytes of a minimal well-signed upload, used as a test fixture. -/
def pdfBytes : List Nat := [0x25, 0x50, 0x44, 0x46]

/-- On success, `validate_pdf_file` hands back exactly the buffer it was
given. -/
theorem validate_pdf_file_ok_out (fn : Option String) (ct : Option String)
    (content out : List Nat)
    (h : validate_pdf_file fn ct content = Except.ok out) : out = content := by
  unfold validate_pdf_file at h
  repeat' split at h
  all_goals simp_all

/-- The magic-byte test of the route agrees with comparing the first four
bytes with the literal signature. -/
theorem magic_prefix_iff (content : List Nat) :
    (PDF_MAGIC_BYTES.isPrefixOf content = true) ↔
      content.take 4 = [0x25, 0x50, 0x44, 0x46] := by
  rw [List.isPrefixOf_iff_prefix, List.prefix_iff_eq_take]
  unfold PDF_MAGIC_BYTES
  exact ⟨fun h => h.symm, fun h => h.symm⟩

/-- Claim C2: upload validation performs exactly the checks (a)–(f) of the
specification in that order, short-circuits on the first failing rule and
reports it, returns the full byte buffer unchanged when all checks pass, and
accepts a payload of exactly 50 MiB. -/
theorem validate_pdf_file_rules_C2 :
    ∀ (fn ct : Option String) (content : List Nat),
      validate_pdf_file fn ct content = validate_pdf_spec fn ct content ∧
      (∀ out, validate_pdf_file fn ct content = Except.ok out → out = content) ∧
      (content.length = MAX_FILE_SIZE →
        validate_pdf_file fn ct content ≠ Except.error VRule.tooLarge) := by
  intro fn ct content
  refine ⟨?_, fun out h => validate_pdf_file_ok_out fn ct content out h, ?_⟩
  · unfold validate_pdf_file validate_pdf_spec specChecks firstFailedRule
    by_cases h1 : fn = none ∨ fn = some ""
    · simp [h1]
    · by_cases h2 : strLower (pySplitextExt (fn.getD "")) ≠ ".pdf"
      · simp [h1, h2]
      · by_cases h3 : ct ≠ some "application/pdf"
        · simp [h1, h2, h3]
        · by_cases h4 : 52428800 < content.length
          · have h4' : content.length > MAX_FILE_SIZE := by
              simpa [MAX_FILE_SIZE] using h4
            simp [h1, h2, h3, h4, h4']
          · have h4' : ¬ content.length > MAX_FILE_SIZE := by
              simpa [MAX_FILE_SIZE] using h4
            by_cases h5 : content = []
            · have h5' : content.length = 0 := by simp [h5]
              simp [h1, h2, h3, h4, h4', h5, h5']
            · have h5' : ¬ content.length = 0 := by simpa using h5
              by_cases h6 : content.take 4 = [0x25, 0x50, 0x44, 0x46]
              · have h6' : PDF_MAGIC_BYTES <+: content :=
                  List.isPrefixOf_iff_prefix.mp ((magic_prefix_iff content).mpr h6)
                simp [h1, h2, h3, h4, h4', h5, h5', h6, h6']
              · have h6' : ¬ PDF_MAGIC_BYTES <+: content := fun hp =>
                  h6 ((magic_prefix_iff content).mp (List.isPrefixOf_iff_prefix.mpr hp))
                simp [h1, h2, h3, h4, h4', h5, h5', h6, h6']
  · intro hlen h
    unfold validate_pdf_file at h
    repeat' split at h
    all_goals simp_all [MAX_FILE_SIZE]

/-- Witness for C2: a well-formed four-byte upload comes back unchanged, and
a payload of exactly 50 MiB is not rejected as too large. -/
theorem validate_pdf_file_rules_C2_witness :
    pdfBytes = pdfBytes ∧
    validate_pdf_file (some "b.pdf") (some "application/pdf")
        (List.replicate MAX_FILE_SIZE 0x25) ≠ Except.error VRule.tooLarge := by
  constructor
  · exact
      (validate_pdf_file_rules_C2 (some "a.pdf") (some "application/pdf") pdfBytes).2.1
        pdfBytes (by decide)
  · exact
      (validate_pdf_file_rules_C2 (some "b.pdf") (some "application/pdf")
          (List.replicate MAX_FILE_SIZE 0x25)).2.2 (by simp)

/-- Shape of a successful sanitization: the hex token, an underscore, then
the substituted characters, each of which is a Python word character, a dot,
a hyphen, or the underscore it was replaced by. -/
theorem sanitize_filename_shape (upre fnm safe : String)
    (hs : sanitize_filename upre fnm = Except.ok safe) :
    ∃ l : List Char, safe.data = upre.data ++ '_' :: l ∧
      ∀ c ∈ l, pyIsWordChar c = true ∨ c = '.' ∨ c = '-' ∨ c = '_' := by
  rw [sanitize_filename] at hs
  split at hs
  · exact Except.noConfusion hs
  · dsimp only at hs
    split at hs
    · exact Except.noConfusion hs
    · injection hs with h
      subst h
      refine ⟨_, rfl, ?_⟩
      intro c hc
      obtain ⟨x, hx, hcx⟩ := List.mem_map.mp hc
      by_cases hkeep : (pyIsWordChar x || decide (x = '.') || decide (x = '-')) = true
      · rw [if_pos hkeep] at hcx
        subst hcx
        rcases Bool.or_eq_true _ _ |>.mp hkeep with hk | hk
        · rcases Bool.or_eq_true _ _ |>.mp hk with hk' | hk'
          · exact Or.inl hk'
          · exact Or.inr (Or.inl (of_decide_eq_true hk'))
        · exact Or.inr (Or.inr (Or.inl (of_decide_eq_true hk)))
      · rw [if_neg hkeep] at hcx
        subst hcx
        exact Or.inr (Or.inr (Or.inr rfl))

/-- Claim C4: joining the upload root with any name the sanitizer accepts
and canonicalizing keeps the path strictly inside the root: the name
contains no path separator and survives dot-segment normalization as one
segment appended to the canonical root (canonicalization is modelled
lexically, i.e. for a filesystem without symbolic links). -/
theorem sanitize_path_contained_C4 (upre fnm safe : String)
    (root : List String)
    (hu : ∀ c ∈ upre.data, isUuidHexChar c = true)
    (hs : sanitize_filename upre fnm = Except.ok safe) :
    ('/' ∉ safe.data) ∧
    normSegs (root ++ [safe]) = normSegs root ++ [safe] ∧
    normSegs root <+: normSegs (root ++ [safe]) := by
  obtain ⟨l, hdata, hchars⟩ := sanitize_filename_shape upre fnm safe hs
  have hund : '_' ∈ safe.data := by
    rw [hdata]
    exact List.mem_append_right _ (List.mem_cons_self _ _)
  have hslash : '/' ∉ safe.data := by
    rw [hdata]
    intro hmem
    rcases List.mem_append.mp hmem with h | h
    · exact absurd (hu _ h) (by decide)
    · rcases List.mem_cons.mp h with h' | h'
      · exact absurd h' (by decide)
      · rcases hchars _ h' with hw | h1 | h1 | h1
        · exact absurd hw (by decide)
        · exact absurd h1 (by decide)
        · exact absurd h1 (by decide)
        · exact absurd h1 (by decide)
  have hne : safe ≠ "" := by
    intro h
    rw [h] at hund
    exact absurd hund (by decide)
  have hnd : safe ≠ "." := by
    intro h
    rw [h] at hund
    exact absurd hund (by decide)
  have hndd : safe ≠ ".." := by
    intro h
    rw [h] at hund
    exact absurd hund (by decide)
  have hns : normSegs (root ++ [safe]) = normSegs root ++ [safe] := by
    unfold normSegs
    rw [List.foldl_append]
    simp [hne, hnd, hndd]
  exact ⟨hslash, hns, ⟨[safe], hns.symm⟩⟩

/-- Witness for C4: a sanitized upload of `Report (Final).pdf` joined with
the upload root stays a single segment directly under it. -/
theorem sanitize_path_contained_C4_witness :
    ('/' ∉ ("abc12345_Report__Final_.pdf" : String).data) ∧
    normSegs (["tmp", "docproc_uploads"] ++ ["abc12345_Report__Final_.pdf"]) =
      normSegs ["tmp", "docproc_uploads"] ++ ["abc12345_Report__Final_.pdf"] ∧
    normSegs ["tmp", "docproc_uploads"] <+:
      normSegs (["tmp", "docproc_uploads"] ++ ["abc12345_Report__Final_.pdf"]) := by
  exact sanitize_path_contained_C4 "abc12345" "Report (Final).pdf"
    "abc12345_Report__Final_.pdf" ["tmp", "docproc_uploads"] (by decide) (by decide)

/-- Claim C5: contrary to the claim (and to the sanitizer's own doc
comment), the regex `[^\w.\-]` uses Python's Unicode notion of a word
character, so the non-ASCII letter `é` survives sanitization even though it
lies outside `[A-Za-z0-9._-]`. -/
theorem sanitize_unicode_kept_C5 :
    sanitize_filename "abc12345" "é.pdf" = Except.ok "abc12345_é.pdf" ∧
    'é' ∈ ("abc12345_é.pdf" : String).data ∧
    claimAllowedChar 'é' = false := by decide

/-- Claim C7: the paginated listing reports
`total_pages = max(1, ceil(total / page_size))`; in particular one page when
the table is empty. -/
theorem total_pages_max_ceil_C7 (total page_size : Nat)
    (h1 : 1 ≤ page_size) (h2 : page_size ≤ 100) :
    total_pages total page_size = max 1 (total ⌈/⌉ page_size) ∧
    (total = 0 → total_pages total page_size = 1) := by
  constructor
  · unfold total_pages
    rw [Nat.ceilDiv_eq_add_pred_div]
    by_cases h : 0 < total
    · rw [if_pos h]
      have hge : 1 ≤ (total + page_size - 1) / page_size := by
        rw [Nat.one_le_div_iff h1]
        omega
      omega
    · rw [if_neg h]
      have h0 : total = 0 := by omega
      subst h0
      have : (0 + page_size - 1) / page_size = 0 := Nat.div_eq_of_lt (by omega)
      omega
  · intro h0
    subst h0
    unfold total_pages
    simp

/-- Witness for C7: 45 rows at page size 20 give 3 pages and an empty table
gives 1 page. -/
theorem total_pages_max_ceil_C7_witness :
    total_pages 45 20 = max 1 (45 ⌈/⌉ 20) ∧ total_pages 0 20 = 1 := by
  constructor
  · exact (total_pages_max_ceil_C7 45 20 (by decide) (by decide)).1
  · exact (total_pages_max_ceil_C7 0 20 (by decide) (by decide)).2 rfl

/-- Claim C10: a zero byte count formats as `"Unknown size"`, sizes below
1024 render in bytes, sizes in `[1024, 1048576)` render in KB, and sizes of
at least 1048576 render in MB. -/
theorem formatFileSize_units_C10 :
    formatFileSize 0 = "Unknown size" ∧
    (∀ b, 0 < b → b < 1024 → formatFileSize b = toString b ++ " B") ∧
    (∀ b, 1024 ≤ b → b < 1048576 → formatFileSize b = fixed1 b 1024 ++ " KB") ∧
    (∀ b, 1048576 ≤ b → formatFileSize b = fixed1 b (1024 * 1024) ++ " MB") := by
  refine ⟨rfl, ?_, ?_, ?_⟩
  · intro b hb1 hb2
    unfold formatFileSize
    rw [if_neg (by omega), if_pos hb2]
  · intro b hb1 hb2
    unfold formatFileSize
    rw [if_neg (by omega), if_neg (by omega), if_pos (by omega)]
  · intro b hb1
    unfold formatFileSize
    rw [if_neg (by omega), if_neg (by omega), if_neg (by omega)]

/-- Witness for C10: sample sizes in each unit band. -/
theorem formatFileSize_units_C10_witness :
    formatFileSize 512 = toString 512 ++ " B" ∧
    formatFileSize 2048 = fixed1 2048 1024 ++ " KB" ∧
    formatFileSize 1048576 = fixed1 1048576 (1024 * 1024) ++ " MB" := by
  refine ⟨?_, ?_, ?_⟩
  · exact formatFileSize_units_C10.2.1 512 (by decide) (by decide)
  · exact formatFileSize_units_C10.2.2.1 2048 (by decide) (by decide)
  · exact formatFileSize_units_C10.2.2.2 1048576 (by decide)

/-- Claim C3: when a validated upload is written to disk and text extraction
then fails, the route removes the written file, returns the 422 processing
error carrying the underlying cause string, and creates no Document row: the
final state equals the initial one. -/
theorem upload_extraction_failure_cleanup_C3
    (st : Sys) (now : Nat) (fn ct : Option String) (content : List Nat)
    (upre safe e : String)
    (hv : validate_pdf_file fn ct content = Except.ok content)
    (hsan : sanitize_filename upre (fn.getD "") = Except.ok safe)
    (hfree : (UPLOAD_DIR ++ "/" ++ safe) ∉ st.fs) :
    upload_document st now fn ct content upre true (Except.error e) =
      (Except.error ⟨422, "Failed to process PDF file: " ++ e⟩, st) := by
  simp only [upload_document, hv, hsan]
  simp [hfree, List.erase_cons_head]

/-- Witness for C3: a concrete corrupted upload against the empty state
leaves the state unchanged and surfaces the cause. -/
theorem upload_extraction_failure_cleanup_C3_witness :
    upload_document emptySys 0 (some "a.pdf") (some "application/pdf") pdfBytes
        "abc12345" true (Except.error "invalid PDF structure") =
      (Except.error ⟨422, "Failed to process PDF file: " ++ "invalid PDF structure"⟩,
       emptySys) := by
  exact upload_extraction_failure_cleanup_C3 emptySys 0 (some "a.pdf")
    (some "application/pdf") pdfBytes "abc12345" "abc12345_a.pdf"
    "invalid PDF structure" (by decide) (by decide) (by decide)

/-- Counterexample for C6: a containment-check failure is raised as HTTP 400
with detail `"Invalid file path"` — the very same status class the route
uses for user-correctable validation failures (here: the empty-file rule) —
so it is not classified as an internal invariant violation. -/
theorem path_check_not_internal_C6_cex :
    (upload_document emptySys 0 (some "a.pdf") (some "application/pdf") pdfBytes
        "abc12345" false (Except.ok ("t", 1))).1 =
      Except.error ⟨400, "Invalid file path"⟩ ∧
    (upload_document emptySys 0 (some "a.pdf") (some "application/pdf")
        ([] : List Nat) "abc12345" true (Except.ok ("t", 1))).1 =
      Except.error ⟨400, "File is empty."⟩ := by decide

/-- Claim C6 (amended): an upload whose sanitized, joined path fails the
upload-root containment check is rejected before any write with an HTTP 400
`"Invalid file path"` error — the same status class as user validation
errors, not a distinguished internal-defect classification. -/
theorem path_check_rejected_400_C6
    (st : Sys) (now : Nat) (fn ct : Option String) (content : List Nat)
    (upre safe : String) (extractRes : Except String (String × Nat))
    (hv : validate_pdf_file fn ct content = Except.ok content)
    (hsan : sanitize_filename upre (fn.getD "") = Except.ok safe) :
    upload_document st now fn ct content upre false extractRes =
      (Except.error ⟨400, "Invalid file path"⟩, st) := by
  simp only [upload_document, hv, hsan]
  rw [if_neg (by simp)]

/-- Witness for C6: concrete containment-check failure on the empty state. -/
theorem path_check_rejected_400_C6_witness :
    upload_document emptySys 0 (some "a.pdf") (some "application/pdf") pdfBytes
        "abc12345" false (Except.ok ("t", 1)) =
      (Except.error ⟨400, "Invalid file path"⟩, emptySys) := by
  exact path_check_rejected_400_C6 emptySys 0 (some "a.pdf")
    (some "application/pdf") pdfBytes "abc12345" "abc12345_a.pdf"
    (Except.ok ("t", 1)) (by decide) (by decide)

/-- Claim C1: deletion commits the transaction before any file removal is
attempted (every removal event in the trace is preceded by the commit
event); a failed transaction leaves the whole state — rows and filesystem —
unchanged and reports an error; and once the commit succeeded the route
reports success whether or not the post-commit file removal succeeds. -/
theorem delete_commit_before_discard_C1
    (st : Sys) (docId : Nat) (commitOk removeOk : Bool) :
    (commitOk = false →
      (delete_document st docId commitOk removeOk).2.1 = st ∧
      (∀ p, DbEvent.removeFile p ∉ (delete_document st docId commitOk removeOk).2.2) ∧
      (∀ m, (delete_document st docId commitOk removeOk).1 ≠ Except.ok m)) ∧
    (∀ (i : Nat) (p : String),
        (delete_document st docId commitOk removeOk).2.2[i]? =
          some (DbEvent.removeFile p) →
      ∃ j : Nat, j < i ∧
        (delete_document st docId commitOk removeOk).2.2[j]? = some DbEvent.commit) ∧
    (commitOk = true →
      ∀ d, st.docs.find? (fun d => d.id = docId) = some d →
        (delete_document st docId commitOk removeOk).1 = Except.ok "Document deleted") := by
  rcases hfind : st.docs.find? (fun d => d.id = docId) with _ | doc
  · have hred : delete_document st docId commitOk removeOk =
        (Except.error ⟨404, "Document not found"⟩, st, []) := by
      simp [delete_document, hfind]
    refine ⟨?_, ?_, ?_⟩
    · intro hc
      rw [hred]
      exact ⟨rfl, fun p => by simp, fun m => by simp⟩
    · intro i p h
      rw [hred] at h
      simp at h
    · intro hc d hd
      rw [hfind] at hd
      exact Option.noConfusion hd
  · cases commitOk
    · have hred : delete_document st docId false removeOk =
          (Except.error ⟨500, "Internal Server Error"⟩, st, []) := by
        simp [delete_document, hfind]
      refine ⟨?_, ?_, ?_⟩
      · intro hc
        rw [hred]
        exact ⟨rfl, fun p => by simp, fun m => by simp⟩
      · intro i p h
        rw [hred] at h
        simp at h
      · intro hc
        exact Bool.noConfusion hc
    · have htr :
          ((delete_document st docId true removeOk).1 = Except.ok "Document deleted") ∧
          ((delete_document st docId true removeOk).2.2 = [DbEvent.commit] ∨
            ∃ q, (delete_document st docId true removeOk).2.2 =
              [DbEvent.commit, DbEvent.removeFile q]) := by
        rcases hfp : doc.file_path with _ | q
        · exact ⟨by simp [delete_document, hfind, hfp],
            Or.inl (by simp [delete_document, hfind, hfp])⟩
        · by_cases hmem : q ∈ st.fs
          · cases removeOk
            · exact ⟨by simp [delete_document, hfind, hfp, hmem],
                Or.inr ⟨q, by simp [delete_document, hfind, hfp, hmem]⟩⟩
            · exact ⟨by simp [delete_document, hfind, hfp, hmem],
                Or.inr ⟨q, by simp [delete_document, hfind, hfp, hmem]⟩⟩
          · exact ⟨by simp [delete_document, hfind, hfp, hmem],
              Or.inl (by simp [delete_document, hfind, hfp, hmem])⟩
      refine ⟨?_, ?_, ?_⟩
      · intro hc
        exact Bool.noConfusion hc
      · intro i p h
        rcases htr.2 with h2 | ⟨q, h2⟩
        · rw [h2] at h
          cases i with
          | zero => simp at h
          | succ n => simp at h
        · rw [h2] at h ⊢
          cases i with
          | zero => simp at h
          | succ n =>
            cases n with
            | zero => exact ⟨0, by omega, rfl⟩
            | succ m => simp at h
      · intro hc d hd
        exact htr.1

/-- Witness for C1: deleting the sample document succeeds even though the
post-commit file removal fails. -/
theorem delete_commit_before_discard_C1_witness :
    (delete_document sampleSys 1 true false).1 = Except.ok "Document deleted" := by
  exact (delete_commit_before_discard_C1 sampleSys 1 true false).2.2 rfl sampleDoc
    (by decide)

/-- Claim C8: for any search, the hit list has at most 100 entries, is the
image of the response rows, which are pairwise ordered by rank descending
with creation time descending breaking ties, and every hit carries the
document identity, filename, a snippet of at most 35 words, and its rank. -/
theorem search_capped_sorted_C8 (q : String) (docs : List DocumentRec)
    (_hq : q ≠ "") :
    ((search_documents q docs).1.length ≤ 100) ∧
    ((search_documents q docs).1 =
      (searchRows q docs).map (toHit (plainto_tsquery (sanitize_search_query q)))) ∧
    List.Pairwise (searchRel (plainto_tsquery (sanitize_search_query q)))
      (searchRows q docs) ∧
    (∀ h ∈ (search_documents q docs).1, ∃ d ∈ searchRows q docs,
        h.id = d.id ∧ h.filename = d.filename ∧
        h.rank = ts_rank (plainto_tsquery (sanitize_search_query q)) d.search_vector ∧
        ∃ ws : List String, h.snippet = " ".intercalate ws ∧ ws.length ≤ 35) := by
  by_cases hs : sanitize_search_query q = ""
  · refine ⟨?_, ?_, ?_, ?_⟩ <;> simp [search_documents, searchRows, hs]
  · refine ⟨?_, ?_, ?_, ?_⟩
    · simp only [search_documents, searchRows, if_neg hs]
      calc ((((docs.filter _).insertionSort _).take 100).map _).length
          = (((docs.filter _).insertionSort _).take 100).length := List.length_map _ _
        _ ≤ 100 := List.length_take_le _ _
    · simp only [search_documents, searchRows, if_neg hs]
    · simp only [searchRows, if_neg hs]
      exact (List.sorted_insertionSort _ _).take
    · intro h hmem
      simp only [search_documents, if_neg hs] at hmem
      obtain ⟨d, hd, hdh⟩ := List.mem_map.mp hmem
      subst hdh
      exact ⟨d, hd, rfl, rfl, rfl,
        ⟨(wordsOf d.content).take 35, rfl, List.length_take_le _ _⟩⟩

/-- Witness for C8: a concrete query over the sample store respects the
cap. -/
theorem search_capped_sorted_C8_witness :
    (search_documents "hello" [sampleDoc]).1.length ≤ 100 := by
  exact (search_capped_sorted_C8 "hello" [sampleDoc] (by decide)).1



/-- Counterexample for C9: a zero-length query string is rejected by the
route's `min_length=1` parameter validation with a 422 error; it does not
produce the empty result list the claim promises. -/
theorem search_empty_rejected_C9_cex :
    search_endpoint "" [] = Except.error 422 ∧
    search_endpoint "" [] ≠ Except.ok ([], false) := by decide

/-- Claim C9 (amended): a query that is whitespace-only (but not empty,
which the route's minimum-length validation rejects with a 422 before the
handler runs) makes the handler return the empty hit list immediately, with
the store never queried. -/
theorem search_whitespace_empty_C9 (q : String) (docs : List DocumentRec)
    (hne : q ≠ "") (hws : ∀ c ∈ q.data, pyIsSpace c = true) :
    search_endpoint q docs = Except.ok ([], false) := by
  have hlen : ¬ q.length < 1 := by
    cases q with
    | mk l =>
      cases l with
      | nil => exact absurd rfl hne
      | cons a as => simp [String.length]
  have hstrip : sanitize_search_query q = "" := by
    unfold sanitize_search_query
    rw [List.dropWhile_eq_nil_iff.mpr hws]
    rfl
  unfold search_endpoint
  rw [if_neg hlen]
  simp [search_documents, hstrip]

/-- Witness for C9: a single-space query yields the empty result without a
store query. -/
theorem search_whitespace_empty_C9_witness :
    search_endpoint " " [] = Except.ok ([], false) := by
  exact search_whitespace_empty_C9 " " [] (by decide) (by decide)

end DocProc
